import Mathlib

/-!
Verification of the CNAB fixed-width record utility (`src/cnabRows.js`).

Lines of the CNAB file are modelled as `List Char`; the JavaScript string
and array primitives used by the program (`slice`, `substring`, `trim`,
`includes`, `toUpperCase`, `split`, indexing) are embedded as executable
functions with JavaScript's clamping conventions made explicit.
-/

/-- JavaScript `line[i]` character indexing: `some c` in range, `none`
(JS `undefined`) out of range. -/
def jsCharAt (l : List Char) (i : Nat) : Option Char := l[i]?

/-- Normalisation of a (possibly negative) slice index against a length,
as in JavaScript `Array.prototype.slice` / `String.prototype.slice`:
a negative index counts from the end (clamped below at 0), a non-negative
index is clamped above at the length. -/
def jsNormalizeIndex (len : Nat) (i : Int) : Nat :=
  if i < 0 then ((len : Int) + i).toNat else min i.toNat len

/-- JavaScript `String.prototype.slice(a, b)` on a list of characters. -/
def jsStringSlice (l : List Char) (a b : Int) : List Char :=
  (l.take (jsNormalizeIndex l.length b)).drop (jsNormalizeIndex l.length a)

/-- Normalisation of a `substring` index: negative (and `NaN`) become 0,
values above the length are clamped to the length. -/
def jsClampIndex (len : Nat) (i : Int) : Nat := min i.toNat len

/-- JavaScript `String.prototype.substring(a, b)`: both indices are clamped
into `[0, len]` and swapped when the start exceeds the end. -/
def jsSubstring (l : List Char) (a b : Int) : List Char :=
  if jsClampIndex l.length a ≤ jsClampIndex l.length b then
    (l.take (jsClampIndex l.length b)).drop (jsClampIndex l.length a)
  else
    (l.take (jsClampIndex l.length a)).drop (jsClampIndex l.length b)

/-- JavaScript one-argument `String.prototype.substring(a)`. -/
def jsSubstringFrom (l : List Char) (a : Int) : List Char :=
  jsSubstring l a l.length

/-- Characters treated as whitespace by JavaScript `String.prototype.trim`
(ASCII whitespace, NBSP and the BOM; the exotic Unicode space separators do
not occur in CNAB files). -/
def isJsWhitespace (c : Char) : Bool :=
  c = ' ' || c = '\t' || c = '\n' || c = '\r' || c = '\u000b' ||
  c = '\u000c' || c = ' ' || c = '﻿'

/-- JavaScript `String.prototype.trim`: strip leading and trailing
whitespace. -/
def jsTrim (l : List Char) : List Char :=
  ((l.dropWhile isJsWhitespace).reverse.dropWhile isJsWhitespace).reverse

/-- JavaScript `haystack.includes(needle)`: contiguous substring test. -/
def jsIncludes (haystack needle : List Char) : Bool :=
  decide (needle <:+: haystack)

/-- JavaScript `String.prototype.toUpperCase` (ASCII uppercasing; CNAB
content is ASCII). -/
def jsToUpperCase (l : List Char) : List Char := l.map Char.toUpper

/-- A half-open byte range `[START, END)` of the static offset table. -/
structure CnabRange where
  START : Nat
  END : Nat
deriving DecidableEq, Repr

/-- Shape of the `CNAB_POSITIONS` constant of `src/cnabRows.js`. -/
structure CnabPositions where
  SEGMENT_INDEX : Nat
  COMPANY_NAME : CnabRange
  ADDRESS : CnabRange
  DISTRICT : CnabRange
  ZIP : CnabRange
  CITY : CnabRange
  STATE : CnabRange
deriving DecidableEq, Repr

/-- The static offset table `CNAB_POSITIONS` of `src/cnabRows.js`. -/
def CNAB_POSITIONS : CnabPositions :=
  { SEGMENT_INDEX := 13
    COMPANY_NAME := { START := 33, END := 73 }
    ADDRESS := { START := 73, END := 113 }
    DISTRICT := { START := 113, END := 128 }
    ZIP := { START := 128, END := 136 }
    CITY := { START := 136, END := 151 }
    STATE := { START := 151, END := 154 } }

/-- One extracted field: its value and its `[from, to)` source range
(source field names `from`/`to`; `from` is a Lean keyword, hence
`fromPos`/`toPos`). -/
structure CnabField where
  value : List Char
  fromPos : Nat
  toPos : Nat
deriving DecidableEq, Repr

/-- The structured result of `parseCnabQSegmentLine`: six named fields in
the object-literal order of the source. -/
structure CnabQSegment where
  nome : CnabField
  endereco : CnabField
  bairro : CnabField
  cep : CnabField
  cidade : CnabField
  estado : CnabField
deriving DecidableEq, Repr

/-- The six fields of a parsed Q segment, listed with their names in the
serialization order of the source's object literal. -/
def CnabQSegment.toFields (s : CnabQSegment) : List (String × CnabField) :=
  [("nome", s.nome), ("endereco", s.endereco), ("bairro", s.bairro),
   ("cep", s.cep), ("cidade", s.cidade), ("estado", s.estado)]

/-- The field extractor `parseCnabQSegmentLine` of `src/cnabRows.js`:
slices each field of the Q-segment offset table out of the line, trimming
the textual fields (`nome`, `endereco`, `bairro`, `cidade`) and keeping
the code fields (`cep`, `estado`) raw. -/
def parseCnabQSegmentLine (line : List Char) : CnabQSegment :=
  { nome :=
      { value := jsTrim (jsStringSlice line CNAB_POSITIONS.COMPANY_NAME.START
          CNAB_POSITIONS.COMPANY_NAME.END)
        fromPos := CNAB_POSITIONS.COMPANY_NAME.START
        toPos := CNAB_POSITIONS.COMPANY_NAME.END }
    endereco :=
      { value := jsTrim (jsStringSlice line CNAB_POSITIONS.ADDRESS.START
          CNAB_POSITIONS.ADDRESS.END)
        fromPos := CNAB_POSITIONS.ADDRESS.START
        toPos := CNAB_POSITIONS.ADDRESS.END }
    bairro :=
      { value := jsTrim (jsStringSlice line CNAB_POSITIONS.DISTRICT.START
          CNAB_POSITIONS.DISTRICT.END)
        fromPos := CNAB_POSITIONS.DISTRICT.START
        toPos := CNAB_POSITIONS.DISTRICT.END }
    cep :=
      { value := jsStringSlice line CNAB_POSITIONS.ZIP.START
          CNAB_POSITIONS.ZIP.END
        fromPos := CNAB_POSITIONS.ZIP.START
        toPos := CNAB_POSITIONS.ZIP.END }
    cidade :=
      { value := jsTrim (jsStringSlice line CNAB_POSITIONS.CITY.START
          CNAB_POSITIONS.CITY.END)
        fromPos := CNAB_POSITIONS.CITY.START
        toPos := CNAB_POSITIONS.CITY.END }
    estado :=
      { value := jsStringSlice line CNAB_POSITIONS.STATE.START
          CNAB_POSITIONS.STATE.END
        fromPos := CNAB_POSITIONS.STATE.START
        toPos := CNAB_POSITIONS.STATE.END } }

/-- The semantic content of the `messageLog` template of `src/cnabRows.js`
(the chalk colour escapes and surrounding banner text are presentation
only): the reported positions, the isolated item
`segmento.substring(from - 1, to)`, and the three spans whose
concatenation renders the line with the item delimited. -/
structure CnabLineReport where
  segmentoType : Char
  fromPos : Int
  toPos : Int
  isolado : List Char
  beforeSpan : List Char
  highlightSpan : List Char
  afterSpan : List Char
deriving DecidableEq, Repr

/-- The full line as `messageLog` renders it: the three spans
concatenated. -/
def CnabLineReport.rendered (r : CnabLineReport) : List Char :=
  r.beforeSpan ++ r.highlightSpan ++ r.afterSpan

/-- The `messageLog` helper of `src/cnabRows.js`, as the report data it
formats: `isolado = segmento.substring(from - 1, to)` and the rendered
line `segmento.substring(0, from - 1)` ++ highlighted
`segmento.substring(from - 1, to)` ++ `segmento.substring(to)`. -/
def messageLog (segmento : List Char) (segmentoType : Char)
    (fromPos toPos : Int) : CnabLineReport :=
  { segmentoType := segmentoType
    fromPos := fromPos
    toPos := toPos
    isolado := jsSubstring segmento (fromPos - 1) toPos
    beforeSpan := jsSubstring segmento 0 (fromPos - 1)
    highlightSpan := jsSubstring segmento (fromPos - 1) toPos
    afterSpan := jsSubstringFrom segmento toPos }

/-- The `segmentMessageLog` helper of `src/cnabRows.js`: each segment line
rendered as prefix span, highlighted span `[from-1, to)`, suffix span
(colour escapes abstracted away). -/
def segmentMessageLog (segmentos : List (List Char)) (_segmentoType : Char)
    (fromPos toPos : Int) : List (List Char) :=
  segmentos.map (fun segmento =>
    jsSubstring segmento 0 (fromPos - 1) ++
    jsSubstring segmento (fromPos - 1) toPos ++
    jsSubstringFrom segmento toPos)

/-- Outcome of `searchSegmentPositions`: either the `messageLog` report of
the first matching line, or the "Nenhuma linha encontrada para o tipo de
segmento informado." message. -/
inductive SearchPositionsResult where
  | found : CnabLineReport → SearchPositionsResult
  | noLineFound : SearchPositionsResult
deriving DecidableEq, Repr

/-- The `searchSegmentPositions` operation of `src/cnabRows.js`:
`cnabBody.find(line => line[CNAB_POSITIONS.SEGMENT_INDEX] === segmentoType)`,
reporting `messageLog` on the first hit and "no line found" otherwise
(the `arquivoPath` parameter only decorates the banner and is dropped). -/
def searchSegmentPositions (cnabBody : List (List Char))
    (segmentoType : Char) (fromPos toPos : Int) : SearchPositionsResult :=
  match cnabBody.find? (fun line =>
      jsCharAt line CNAB_POSITIONS.SEGMENT_INDEX == some segmentoType) with
  | some register => .found (messageLog register segmentoType fromPos toPos)
  | none => .noLineFound

/-- Outcome of `searchBySegmentType`: the `segmentMessageLog` rendering of
all matching lines, or the "Nenhum segmento encontrado." message. -/
inductive SegmentTypeResult where
  | found : List (List Char) → SegmentTypeResult
  | noSegmentFound : SegmentTypeResult
deriving DecidableEq, Repr

/-- The `searchBySegmentType` operation of `src/cnabRows.js`: filters the
body by `line[CNAB_POSITIONS.SEGMENT_INDEX] === segmentoType` and renders
every match with the discriminator position highlighted. -/
def searchBySegmentType (cnabBody : List (List Char))
    (segmentoType : Char) : SegmentTypeResult :=
  let foundSegment := cnabBody.filter (fun line =>
    jsCharAt line CNAB_POSITIONS.SEGMENT_INDEX == some segmentoType)
  if foundSegment.length ≠ 0 then
    .found (segmentMessageLog foundSegment segmentoType
      ((CNAB_POSITIONS.SEGMENT_INDEX : Int) + 1)
      ((CNAB_POSITIONS.SEGMENT_INDEX : Int) + 1))
  else .noSegmentFound

/-- Outcome of `searchByCompanyName`: one `messageLog` report per matching
line, or the "Nenhuma empresa encontrada com esse nome." message. -/
inductive CompanySearchResult where
  | found : List CnabLineReport → CompanySearchResult
  | noCompanyFound : CompanySearchResult
deriving DecidableEq, Repr

/-- The `searchByCompanyName` operation of `src/cnabRows.js`: keeps the
body lines with discriminator `'Q'` whose `[COMPANY_NAME.START,
COMPANY_NAME.END)` slice includes the upper-cased pattern, and logs each
with `from = START + 1` and `to = START + |trimmed field|`. -/
def searchByCompanyName (cnabBody : List (List Char))
    (companyName : List Char) : CompanySearchResult :=
  let foundCompanies := cnabBody.filter (fun line =>
    jsCharAt line CNAB_POSITIONS.SEGMENT_INDEX == some 'Q' &&
    jsIncludes
      (jsStringSlice line CNAB_POSITIONS.COMPANY_NAME.START
        CNAB_POSITIONS.COMPANY_NAME.END)
      (jsToUpperCase companyName))
  if foundCompanies.length = 0 then .noCompanyFound
  else
    .found (foundCompanies.map (fun line =>
      let endIndex := (jsTrim (jsStringSlice line
        CNAB_POSITIONS.COMPANY_NAME.START
        CNAB_POSITIONS.COMPANY_NAME.END)).length
      messageLog line 'Q' ((CNAB_POSITIONS.COMPANY_NAME.START : Int) + 1)
        ((CNAB_POSITIONS.COMPANY_NAME.START : Int) + endIndex)))

/-- The `exportToJson` helper of `src/cnabRows.js`: the parsed data that
`JSON.stringify` serialises to the output file (the file write itself is
I/O and outside the model). -/
def exportToJson (data : List (List Char)) : List CnabQSegment :=
  data.map (fun line => parseCnabQSegmentLine line)

/-- The `exportToJsonFile` operation of `src/cnabRows.js`: filters the
given line array by discriminator `'Q'` and exports the parsed Q segments. -/
def exportToJsonFile (cnabArray : List (List Char)) : List CnabQSegment :=
  exportToJson (cnabArray.filter (fun line =>
    jsCharAt line CNAB_POSITIONS.SEGMENT_INDEX == some 'Q'))

/-- The `sliceArrayPosition` helper of `src/cnabRows.js`:
`[...arr].slice(...positions)`, with JavaScript `Array.prototype.slice`
semantics for zero, one or two position arguments (extra arguments are
ignored by `slice`). -/
def sliceArrayPosition (arr : List (List Char)) :
    List Int → List (List Char)
  | [] => arr
  | [a] => (arr.take arr.length).drop (jsNormalizeIndex arr.length a)
  | a :: b :: _ =>
      (arr.take (jsNormalizeIndex arr.length b)).drop
        (jsNormalizeIndex arr.length a)

/-- The `Document` produced by `readCnabFile` in `src/cnabRows.js`. -/
structure CnabDocument where
  full : List (List Char)
  header : List (List Char)
  body : List (List Char)
  tail : List (List Char)
deriving DecidableEq, Repr

/-- The pure core of `readCnabFile` in `src/cnabRows.js`: split the file
contents on `'\n'` and partition the line array with `sliceArrayPosition`
(the file read itself is I/O and outside the model). -/
def readCnabFile (file : List Char) : CnabDocument :=
  let cnabArray := file.splitOn '\n'
  { full := cnabArray
    header := sliceArrayPosition cnabArray [0, 2]
    body := sliceArrayPosition cnabArray [2, -2]
    tail := sliceArrayPosition cnabArray [-2] }

/-- Error taxonomy entry for field extraction on an unsupported segment
type. -/
inductive CnabError where
  | UnsupportedSegment : CnabError
deriving DecidableEq, Repr

/-- Modelled from the spec: the repository has no `extractFields`
dispatcher under `src/` (field extraction is only ever invoked on
`'Q'`-filtered lines, via `parseCnabQSegmentLine`); the spec's contract
`extractFields(line, segmentType) -> FieldSet` looks up the static offset
table for `segmentType` — only `"Q"` is defined — and fails with
`UnsupportedSegment` when no table exists. -/
def extractFields (line : List Char) (segmentType : Char) :
    Except CnabError CnabQSegment :=
  if segmentType = 'Q' then .ok (parseCnabQSegmentLine line)
  else .error .UnsupportedSegment

/-- The call the export branch of `processCommandArguments` makes:
`exportToJsonFile(cnabData.full, json)` — the export scans the full
document, not just the body. -/
def processJsonExport (cnabData : CnabDocument) : List CnabQSegment :=
  exportToJsonFile cnabData.full

/-- Concrete sample line used in the spec's scenarios: discriminator `'Q'`
at index 13 and the company name `ACME CORP LTDA` filling the
`[33, 73)` name field (padded with spaces), total length 73. -/
def acmeLine : List Char :=
  List.replicate 13 '.' ++ ['Q'] ++ List.replicate 19 '.' ++
  String.toList "ACME CORP LTDA" ++ List.replicate 26 ' '

/-- Sample line with discriminator `'Q'` and no field content. -/
def qLine : List Char := List.replicate 13 'X' ++ ['Q']

/-- Sample line with discriminator `'P'`. -/
def pLine : List Char := List.replicate 13 'X' ++ ['P']

/-- Fifteen sample lines: five with discriminator `'Q'` (two of which sit
in the header slots and two in the trailer slots) and ten without. -/
def sampleFull : List (List Char) :=
  [qLine, qLine, pLine, pLine, pLine, pLine, pLine, qLine,
   pLine, pLine, pLine, pLine, pLine, qLine, qLine]

/-- The document `readCnabFile` builds from the fifteen sample lines. -/
def sampleDoc : CnabDocument :=
  readCnabFile (List.intercalate ['\n'] sampleFull)

/-- Dropping then taking never grows a list beyond the original: any
`(l.take b).drop a` is a contiguous infix of `l`. -/
theorem take_drop_isInfix (l : List Char) (a b : Nat) :
    (l.take b).drop a <:+: l :=
  ((List.drop_suffix a (l.take b)).isInfix).trans
    ( List.take_prefix b l).isInfix

/-- JavaScript `substring` always yields a contiguous infix of the
receiver, whatever the index arguments. -/
theorem jsSubstring_isInfix (l : List Char) (a b : Int) :
    jsSubstring l a b <:+: l := by
  unfold jsSubstring
  split
  · exact take_drop_isInfix l _ _
  · exact take_drop_isInfix l _ _

/-- One-argument JavaScript `substring` also yields a contiguous infix. -/
theorem jsSubstringFrom_isInfix (l : List Char) (a : Int) :
    jsSubstringFrom l a <:+: l :=
  jsSubstring_isInfix l a l.length

/-- Trimming never lengthens a string. -/
theorem jsTrim_length_le (l : List Char) : (jsTrim l).length ≤ l.length := by
  unfold jsTrim
  rw [List.length_reverse]
  calc ((l.dropWhile isJsWhitespace).reverse.dropWhile isJsWhitespace).length
      ≤ (l.dropWhile isJsWhitespace).reverse.length :=
        (List.dropWhile_suffix isJsWhitespace).length_le
    _ = (l.dropWhile isJsWhitespace).length := List.length_reverse _
    _ ≤ l.length := (List.dropWhile_suffix isJsWhitespace).length_le

/-- Splitting a list at two ordered cut points and reassembling the three
pieces restores the list. -/
theorem take_drop_assemble (l : List Char) (a b : Nat) (hab : a ≤ b) :
    l.take a ++ (l.take b).drop a ++ l.drop b = l := by
  have h1 : l.take a ++ (l.take b).drop a = l.take b := by
    have h := List.take_append_drop a (l.take b)
    rwa [List.take_take, Nat.min_eq_left hab] at h
  rw [h1]
  exact List.take_append_drop b l

/-- With indices in increasing order, the three `substring` spans of
`messageLog` reassemble the original line. -/
theorem jsSubstring_three_spans (l : List Char) (f t : Int)
    (h2 : f - 1 ≤ t) :
    jsSubstring l 0 (f - 1) ++ jsSubstring l (f - 1) t ++
      jsSubstringFrom l t = l := by
  have hmono : jsClampIndex l.length (f - 1) ≤ jsClampIndex l.length t := by
    have h := Int.toNat_le_toNat h2
    unfold jsClampIndex
    omega
  have e1 : jsSubstring l 0 (f - 1) =
      l.take (jsClampIndex l.length (f - 1)) := by
    unfold jsSubstring
    rw [if_pos]
    · have h0 : jsClampIndex l.length 0 = 0 := by unfold jsClampIndex; omega
      rw [h0, List.drop_zero]
    · have h0 : jsClampIndex l.length 0 = 0 := by unfold jsClampIndex; omega
      omega
  have e2 : jsSubstring l (f - 1) t =
      (l.take (jsClampIndex l.length t)).drop
        (jsClampIndex l.length (f - 1)) := by
    unfold jsSubstring
    rw [if_pos hmono]
  have e3 : jsSubstringFrom l t = l.drop (jsClampIndex l.length t) := by
    unfold jsSubstringFrom jsSubstring
    have hlen : jsClampIndex l.length (l.length : Int) = l.length := by
      unfold jsClampIndex
      omega
    rw [if_pos]
    · rw [hlen, List.take_length]
    · rw [hlen]
      unfold jsClampIndex
      omega
  rw [e1, e2, e3]
  exact take_drop_assemble l _ _ hmono

/-- The highlighted span `substring(33, 33 + trimmedLength)` that
Company-Name Search reports has exactly the trimmed field's length: the
trimmed name never reaches past the end of the line, so no truncation can
shorten the reported span. -/
theorem companyName_span_length (line : List Char) :
    (jsSubstring line 33 ((33 : Int) +
      (jsTrim (jsStringSlice line 33 73)).length)).length =
    (jsTrim (jsStringSlice line 33 73)).length := by
  have hb : (jsTrim (jsStringSlice line 33 73)).length ≤
      min 73 line.length - 33 := by
    have h1 := jsTrim_length_le (jsStringSlice line 33 73)
    have h2 : (jsStringSlice line 33 73).length =
        min 73 line.length - 33 := by
      unfold jsStringSlice jsNormalizeIndex
      rw [if_neg (by norm_num), if_neg (by norm_num)]
      rw [List.length_drop, List.length_take]
      omega
    omega
  unfold jsSubstring jsClampIndex
  rw [if_pos (by omega)]
  rw [List.length_drop, List.length_take]
  omega

/-- C1: for every line, Q-segment field extraction returns exactly the six
fields of the static offset table, in table order (nome, endereco, bairro,
cep, cidade, estado), each carrying its `[start, end)` range exactly as in
the table; nome, endereco, bairro and cidade hold the trimmed slice, cep
and estado the raw untrimmed slice. -/
theorem parseCnabQSegmentLine_table_fields (line : List Char) :
    (parseCnabQSegmentLine line).toFields =
      [("nome", { value := jsTrim (jsStringSlice line 33 73),
                  fromPos := 33, toPos := 73 }),
       ("endereco", { value := jsTrim (jsStringSlice line 73 113),
                      fromPos := 73, toPos := 113 }),
       ("bairro", { value := jsTrim (jsStringSlice line 113 128),
                    fromPos := 113, toPos := 128 }),
       ("cep", { value := jsStringSlice line 128 136,
                 fromPos := 128, toPos := 136 }),
       ("cidade", { value := jsTrim (jsStringSlice line 136 151),
                    fromPos := 136, toPos := 151 }),
       ("estado", { value := jsStringSlice line 151 154,
                    fromPos := 151, toPos := 154 })] := rfl

/-- C3: field extraction for any segment type other than `'Q'`, for which
no static offset table is defined, fails with `UnsupportedSegment` instead
of returning a field set. -/
theorem extractFields_unsupported_segment (line : List Char)
    (segmentType : Char) (h : segmentType ≠ 'Q') :
    extractFields line segmentType =
      Except.error CnabError.UnsupportedSegment := by
  unfold extractFields
  rw [if_neg h]

/-- Witness for C3 at segment type `'P'` on the empty line. -/
theorem extractFields_unsupported_segment_witness :
    ('P' : Char) ≠ 'Q' ∧
      extractFields [] 'P' = Except.error CnabError.UnsupportedSegment :=
  ⟨by decide, extractFields_unsupported_segment [] 'P' (by decide)⟩

/-- C9: Positional Range Lookup is deterministic — two calls with
identical body, segment type, from and to arguments produce identical
reports. -/
theorem searchSegmentPositions_deterministic (cnabBody : List (List Char))
    (segmentoType : Char) (fromPos toPos : Int)
    (r₁ r₂ : SearchPositionsResult)
    (h₁ : searchSegmentPositions cnabBody segmentoType fromPos toPos = r₁)
    (h₂ : searchSegmentPositions cnabBody segmentoType fromPos toPos = r₂) :
    r₁ = r₂ := h₁ ▸ h₂ ▸ rfl

/-- Witness for C9: two identical concrete calls agree. -/
theorem searchSegmentPositions_deterministic_witness :
    SearchPositionsResult.noLineFound = SearchPositionsResult.noLineFound :=
  searchSegmentPositions_deterministic [] 'Q' 21 34 .noLineFound
    .noLineFound rfl rfl

/-- C10: the six Q-segment field ranges are contiguous and tile the
interval `[33, 154)` — each field's end offset is the next field's start
offset, the ranges are pairwise non-overlapping with no gaps, and the
discriminator index 13 lies outside every field range. -/
theorem cnabPositions_ranges_tile :
    [CNAB_POSITIONS.COMPANY_NAME, CNAB_POSITIONS.ADDRESS,
      CNAB_POSITIONS.DISTRICT, CNAB_POSITIONS.ZIP, CNAB_POSITIONS.CITY,
      CNAB_POSITIONS.STATE].Chain' (fun a b => a.END = b.START) ∧
    CNAB_POSITIONS.COMPANY_NAME.START = 33 ∧
    CNAB_POSITIONS.STATE.END = 154 ∧
    [CNAB_POSITIONS.COMPANY_NAME, CNAB_POSITIONS.ADDRESS,
      CNAB_POSITIONS.DISTRICT, CNAB_POSITIONS.ZIP, CNAB_POSITIONS.CITY,
      CNAB_POSITIONS.STATE].Pairwise
        (fun a b => a.END ≤ b.START ∨ b.END ≤ a.START) ∧
    (∀ n : Nat, (33 ≤ n ∧ n < 154) ↔
      ∃ r ∈ [CNAB_POSITIONS.COMPANY_NAME, CNAB_POSITIONS.ADDRESS,
        CNAB_POSITIONS.DISTRICT, CNAB_POSITIONS.ZIP, CNAB_POSITIONS.CITY,
        CNAB_POSITIONS.STATE], r.START ≤ n ∧ n < r.END) ∧
    (∀ r ∈ [CNAB_POSITIONS.COMPANY_NAME, CNAB_POSITIONS.ADDRESS,
        CNAB_POSITIONS.DISTRICT, CNAB_POSITIONS.ZIP, CNAB_POSITIONS.CITY,
        CNAB_POSITIONS.STATE],
      ¬(r.START ≤ CNAB_POSITIONS.SEGMENT_INDEX ∧
        CNAB_POSITIONS.SEGMENT_INDEX < r.END)) := by
  refine ⟨by simp [List.chain'_cons, CNAB_POSITIONS], rfl, rfl, by decide,
    ?_, by decide⟩
  intro n
  simp only [CNAB_POSITIONS, List.mem_cons, List.not_mem_nil, or_false,
    exists_eq_or_imp, exists_eq_left]
  omega

/-- Witness for C10: the company-name range excludes the discriminator
index, and offset 100 is covered by exactly the tiling. -/
theorem cnabPositions_ranges_tile_witness :
    ¬(CNAB_POSITIONS.COMPANY_NAME.START ≤ CNAB_POSITIONS.SEGMENT_INDEX ∧
      CNAB_POSITIONS.SEGMENT_INDEX < CNAB_POSITIONS.COMPANY_NAME.END) ∧
    ((33 ≤ 100 ∧ 100 < 154) ↔
      ∃ r ∈ [CNAB_POSITIONS.COMPANY_NAME, CNAB_POSITIONS.ADDRESS,
        CNAB_POSITIONS.DISTRICT, CNAB_POSITIONS.ZIP, CNAB_POSITIONS.CITY,
        CNAB_POSITIONS.STATE], r.START ≤ 100 ∧ 100 < r.END) :=
  ⟨cnabPositions_ranges_tile.2.2.2.2.2 CNAB_POSITIONS.COMPANY_NAME
      (by simp),
    cnabPositions_ranges_tile.2.2.2.2.1 100⟩

/-- C8: every filtering operation — Positional Range Lookup, Segment-Type
Listing, Company-Name Search, and Export — reads the segment discriminator
from the same fixed 0-based index 13, regardless of the segment type
requested: `CNAB_POSITIONS.SEGMENT_INDEX` is 13 and each operation is
exactly its own definition with the discriminator access hard-coded to
index 13. -/
theorem discriminator_fixed_index_13 :
    CNAB_POSITIONS.SEGMENT_INDEX = 13 ∧
    (∀ (cnabBody : List (List Char)) (segmentoType : Char) (f t : Int),
      searchSegmentPositions cnabBody segmentoType f t =
        match cnabBody.find? (fun line =>
            jsCharAt line 13 == some segmentoType) with
        | some register => .found (messageLog register segmentoType f t)
        | none => .noLineFound) ∧
    (∀ (cnabBody : List (List Char)) (segmentoType : Char),
      searchBySegmentType cnabBody segmentoType =
        if (cnabBody.filter (fun line =>
            jsCharAt line 13 == some segmentoType)).length ≠ 0 then
          .found (segmentMessageLog
            (cnabBody.filter (fun line =>
              jsCharAt line 13 == some segmentoType))
            segmentoType 14 14)
        else .noSegmentFound) ∧
    (∀ (cnabBody : List (List Char)) (companyName : List Char),
      searchByCompanyName cnabBody companyName =
        if (cnabBody.filter (fun line =>
            jsCharAt line 13 == some 'Q' &&
            jsIncludes (jsStringSlice line 33 73)
              (jsToUpperCase companyName))).length = 0 then
          .noCompanyFound
        else
          .found ((cnabBody.filter (fun line =>
              jsCharAt line 13 == some 'Q' &&
              jsIncludes (jsStringSlice line 33 73)
                (jsToUpperCase companyName))).map (fun line =>
            messageLog line 'Q' 34
              ((33 : Int) +
                (jsTrim (jsStringSlice line 33 73)).length)))) ∧
    (∀ cnabArray : List (List Char),
      exportToJsonFile cnabArray =
        (cnabArray.filter (fun line => jsCharAt line 13 == some 'Q')).map
          parseCnabQSegmentLine) :=
  ⟨rfl, fun _ _ _ _ => rfl, fun _ _ => rfl, fun _ _ => rfl, fun _ => rfl⟩

/-- The header slice `slice(0, 2)` is the first two lines. -/
theorem sliceArrayPosition_header (arr : List (List Char)) :
    sliceArrayPosition arr [0, 2] = arr.take 2 := by
  have h0 : jsNormalizeIndex arr.length 0 = 0 := by
    unfold jsNormalizeIndex
    rw [if_neg (by norm_num)]
    omega
  have h2 : jsNormalizeIndex arr.length 2 = min 2 arr.length := by
    unfold jsNormalizeIndex
    rw [if_neg (by norm_num)]
    omega
  show (arr.take (jsNormalizeIndex arr.length 2)).drop
      (jsNormalizeIndex arr.length 0) = arr.take 2
  rw [h0, h2, List.drop_zero]
  exact List.take_eq_take.mpr (by omega)

/-- The body slice `slice(2, -2)` is the lines `[2, len - 2)`. -/
theorem sliceArrayPosition_body (arr : List (List Char)) :
    sliceArrayPosition arr [2, -2] = (arr.take (arr.length - 2)).drop 2 := by
  have hm2 : jsNormalizeIndex arr.length (-2) = arr.length - 2 := by
    unfold jsNormalizeIndex
    rw [if_pos (by norm_num)]
    omega
  have h2 : jsNormalizeIndex arr.length 2 = min 2 arr.length := by
    unfold jsNormalizeIndex
    rw [if_neg (by norm_num)]
    omega
  show (arr.take (jsNormalizeIndex arr.length (-2))).drop
      (jsNormalizeIndex arr.length 2) = (arr.take (arr.length - 2)).drop 2
  rw [hm2, h2]
  rcases Nat.le_total 2 arr.length with h | h
  · rw [Nat.min_eq_left h]
  · have hz : arr.length - 2 = 0 := by omega
    rw [hz]
    simp

/-- The tail slice `slice(-2)` is the lines from `len - 2` on. -/
theorem sliceArrayPosition_tail (arr : List (List Char)) :
    sliceArrayPosition arr [-2] = arr.drop (arr.length - 2) := by
  have hm2 : jsNormalizeIndex arr.length (-2) = arr.length - 2 := by
    unfold jsNormalizeIndex
    rw [if_pos (by norm_num)]
    omega
  show (arr.take arr.length).drop (jsNormalizeIndex arr.length (-2)) =
    arr.drop (arr.length - 2)
  rw [List.take_length, hm2]

/-- C5: loading splits the file contents on the newline character with no
trimming of individual lines (joining the lines with a newline restores
the exact file contents), and returns a Document whose `full` is the whole
line sequence, `header` is lines `[0, 2)`, `body` is lines `[2, len - 2)`,
and `tail` is the last two lines (`drop (len - 2)`, of length
`min 2 len`). -/
theorem readCnabFile_partitions (file : List Char) :
    readCnabFile file =
      { full := file.splitOn '\n'
        header := (file.splitOn '\n').take 2
        body := ((file.splitOn '\n').take
          ((file.splitOn '\n').length - 2)).drop 2
        tail := (file.splitOn '\n').drop
          ((file.splitOn '\n').length - 2) } ∧
    ['\n'].intercalate (file.splitOn '\n') = file ∧
    (readCnabFile file).tail.length = min 2 (file.splitOn '\n').length := by
  refine ⟨?_, List.intercalate_splitOn file '\n', ?_⟩
  · simp only [readCnabFile, sliceArrayPosition_header,
      sliceArrayPosition_body, sliceArrayPosition_tail]
  · simp only [readCnabFile, sliceArrayPosition_tail]
    rw [List.length_drop]
    omega

/-- C2: Company-Name Search reports exactly the body lines whose character
at index 13 is `'Q'` and whose `[33, 73)` name slice contains the
upper-cased pattern, one report per matching line in original order with
no early exit; every report's span is `from = 34`, `to = 33 + trimmed
length`, and the highlighted span's length equals the trimmed field
value's length exactly, so it is never shorter than the full trimmed
company name; on the ACME scenario line, searching "ACME" yields one match
with span offsets 33–47 and segment `'Q'`. -/
theorem searchByCompanyName_full_trimmed_span :
    (∀ (cnabBody : List (List Char)) (companyName : List Char),
      searchByCompanyName cnabBody companyName =
        if (cnabBody.filter (fun line =>
            jsCharAt line 13 == some 'Q' &&
            jsIncludes (jsStringSlice line 33 73)
              (jsToUpperCase companyName))).length = 0 then
          .noCompanyFound
        else
          .found ((cnabBody.filter (fun line =>
              jsCharAt line 13 == some 'Q' &&
              jsIncludes (jsStringSlice line 33 73)
                (jsToUpperCase companyName))).map (fun line =>
            messageLog line 'Q' 34
              ((33 : Int) +
                (jsTrim (jsStringSlice line 33 73)).length)))) ∧
    (∀ line : List Char,
      (messageLog line 'Q' 34
        ((33 : Int) + (jsTrim (jsStringSlice line 33 73)).length)).fromPos
          = 34 ∧
      (messageLog line 'Q' 34
        ((33 : Int) + (jsTrim (jsStringSlice line 33 73)).length)).toPos
          = (33 : Int) + (jsTrim (jsStringSlice line 33 73)).length ∧
      (messageLog line 'Q' 34
        ((33 : Int) +
          (jsTrim (jsStringSlice line 33 73)).length)).highlightSpan.length
          = (jsTrim (jsStringSlice line 33 73)).length) ∧
    (searchByCompanyName [acmeLine] (String.toList "ACME") =
        .found [messageLog acmeLine 'Q' 34 47] ∧
      (messageLog acmeLine 'Q' 34 47).highlightSpan =
        String.toList "ACME CORP LTDA" ∧
      (messageLog acmeLine 'Q' 34 47).fromPos - 1 = 33 ∧
      (messageLog acmeLine 'Q' 34 47).toPos = 47 ∧
      (messageLog acmeLine 'Q' 34 47).segmentoType = 'Q') := by
  refine ⟨fun _ _ => rfl, fun line => ⟨rfl, rfl, ?_⟩, by decide⟩
  show (jsSubstring line ((34 : Int) - 1)
    ((33 : Int) + (jsTrim (jsStringSlice line 33 73)).length)).length = _
  have h34 : (34 : Int) - 1 = 33 := by norm_num
  rw [h34]
  exact companyName_span_length line

/-- C6: export filters `document.full` — the entire line sequence,
including header and trailer lines, not just the body — to the lines whose
character at index 13 is `'Q'`, extracts the six-field set for each such
line via Q-segment field extraction, and serialises one entry per matching
line in original order; on the sample document with 5 `'Q'` lines and 10
non-`'Q'` lines the output has exactly 5 entries, each with 6 fields,
while a body-only scan would have found just 1. -/
theorem exportToJsonFile_scans_full :
    (∀ doc : CnabDocument, processJsonExport doc =
      (doc.full.filter (fun line => jsCharAt line 13 == some 'Q')).map
        parseCnabQSegmentLine) ∧
    (∀ doc : CnabDocument, (processJsonExport doc).length =
      doc.full.countP (fun line => jsCharAt line 13 == some 'Q')) ∧
    (∀ doc : CnabDocument, ∀ s ∈ processJsonExport doc,
      s.toFields.length = 6) ∧
    (sampleDoc.full.countP (fun line => jsCharAt line 13 == some 'Q') = 5 ∧
      sampleDoc.full.countP
        (fun line => !(jsCharAt line 13 == some 'Q')) = 10 ∧
      (processJsonExport sampleDoc).length = 5 ∧
      (sampleDoc.body.filter
        (fun line => jsCharAt line 13 == some 'Q')).length = 1) := by
  refine ⟨fun _ => rfl, fun doc => ?_, fun doc s _ => rfl, by decide⟩
  show ((doc.full.filter (fun line =>
    jsCharAt line 13 == some 'Q')).map parseCnabQSegmentLine).length = _
  rw [List.length_map, ← List.countP_eq_length_filter]

/-- Witness for C6: the sample document exports five entries, and the
entry extracted from a sample `'Q'` line has six fields. -/
theorem exportToJsonFile_scans_full_witness :
    (processJsonExport sampleDoc).length = 5 ∧
    (parseCnabQSegmentLine qLine).toFields.length = 6 :=
  ⟨exportToJsonFile_scans_full.2.2.2.2.2.1,
    exportToJsonFile_scans_full.2.2.1 sampleDoc
      (parseCnabQSegmentLine qLine) (by decide)⟩

/-- C7: Positional Range Lookup is total for all `from`/`to` values — it
always produces a result, and when a line is found every reported span
(isolated item, prefix span, highlighted span, suffix span) is a
contiguous — possibly empty or truncated — piece of that line; when no
body line carries the requested discriminator (e.g. `from = 21`,
`to = 34` with no `'P'` line), it produces the "no line found" report
rather than an exception. -/
theorem searchSegmentPositions_never_raises :
    (∀ (cnabBody : List (List Char)) (segmentoType : Char) (f t : Int),
      (∀ l ∈ cnabBody, ¬(jsCharAt l 13 = some segmentoType)) →
        searchSegmentPositions cnabBody segmentoType f t = .noLineFound) ∧
    (∀ (cnabBody : List (List Char)) (segmentoType : Char) (f t : Int)
        (r : CnabLineReport),
      searchSegmentPositions cnabBody segmentoType f t = .found r →
      ∃ register ∈ cnabBody,
        r = messageLog register segmentoType f t ∧
        r.isolado <:+: register ∧ r.beforeSpan <:+: register ∧
        r.highlightSpan <:+: register ∧ r.afterSpan <:+: register) ∧
    searchSegmentPositions [qLine] 'P' 21 34 = .noLineFound := by
  refine ⟨?_, ?_, by decide⟩
  · intro cnabBody segmentoType f t h
    have hnone : cnabBody.find? (fun line =>
        jsCharAt line CNAB_POSITIONS.SEGMENT_INDEX == some segmentoType) =
          none := by
      rw [List.find?_eq_none]
      intro x hx
      simpa [beq_iff_eq, CNAB_POSITIONS] using h x hx
    unfold searchSegmentPositions
    rw [hnone]
  · intro cnabBody segmentoType f t r hr
    unfold searchSegmentPositions at hr
    cases hfind : cnabBody.find? (fun line =>
        jsCharAt line CNAB_POSITIONS.SEGMENT_INDEX == some segmentoType) with
    | none =>
        rw [hfind] at hr
        exact absurd hr (by simp)
    | some register =>
        rw [hfind] at hr
        have hreq : r = messageLog register segmentoType f t := by
          injection hr with h
          exact h.symm
        refine ⟨register, List.mem_of_find?_eq_some hfind, hreq,
          ?_, ?_, ?_, ?_⟩
        · rw [hreq]
          exact jsSubstring_isInfix register (f - 1) t
        · rw [hreq]
          exact jsSubstring_isInfix register 0 (f - 1)
        · rw [hreq]
          exact jsSubstring_isInfix register (f - 1) t
        · rw [hreq]
          exact jsSubstringFrom_isInfix register t

/-- Witness for C7 at the spec's scenario: `from = 21`, `to = 34`, with
no `'P'` line in the body. -/
theorem searchSegmentPositions_never_raises_witness :
    searchSegmentPositions [qLine] 'P' 21 34 = .noLineFound :=
  searchSegmentPositions_never_raises.1 [qLine] 'P' 21 34 (by decide)

/-- When the start index does not exceed the end index, JavaScript
`substring` does not swap its endpoints and is a plain clamped slice. -/
theorem jsSubstring_no_swap (l : List Char) (a b : Int) (h : a ≤ b) :
    jsSubstring l a b =
      (l.take (jsClampIndex l.length b)).drop (jsClampIndex l.length a) := by
  have hmono : jsClampIndex l.length a ≤ jsClampIndex l.length b := by
    have ht := Int.toNat_le_toNat h
    unfold jsClampIndex
    omega
  unfold jsSubstring
  rw [if_pos hmono]

/-- Counterexample to C4 as stated: at `from = 18`, `to = 15` (so
`from - 1 > to`), JavaScript `substring` swaps its endpoints, the
rendered prefix/highlight/suffix spans no longer concatenate to the
original line, and the isolated item is not the raw `[from - 1, to)`
slice (which is empty). -/
theorem searchSegmentPositions_three_spans_cex :
    searchSegmentPositions [acmeLine] 'Q' 18 15 =
      .found (messageLog acmeLine 'Q' 18 15) ∧
    (messageLog acmeLine 'Q' 18 15).rendered ≠ acmeLine ∧
    (messageLog acmeLine 'Q' 18 15).isolado ≠
      jsStringSlice acmeLine (18 - 1) 15 := by decide

/-- C4 (amended): provided the caller-supplied positions respect the
1-based convention (`1 ≤ from` and `from - 1 ≤ to`), Positional Range
Lookup selects only the first body line whose character at index 13
equals the segment type — later matching lines are never consulted — and
its report contains the raw clamped substring `[from - 1, to)` of that
line together with the full line rendered as three concatenated spans
whose concatenation equals the original line. -/
theorem searchSegmentPositions_first_match_report
    (cnabBody : List (List Char)) (segmentoType : Char) (f t : Int)
    (_h1 : 1 ≤ f) (h2 : f - 1 ≤ t) :
    (∀ (l : List Char) (rest : List (List Char)),
      searchSegmentPositions (l :: rest) segmentoType f t =
        if jsCharAt l 13 == some segmentoType then
          .found (messageLog l segmentoType f t)
        else searchSegmentPositions rest segmentoType f t) ∧
    (∀ register : List Char,
      cnabBody.find? (fun line =>
        jsCharAt line 13 == some segmentoType) = some register →
      searchSegmentPositions cnabBody segmentoType f t =
        .found (messageLog register segmentoType f t) ∧
      (messageLog register segmentoType f t).isolado =
        (register.take (jsClampIndex register.length t)).drop
          (jsClampIndex register.length (f - 1)) ∧
      (messageLog register segmentoType f t).rendered = register) := by
  constructor
  · intro l rest
    unfold searchSegmentPositions
    simp only [show CNAB_POSITIONS.SEGMENT_INDEX = 13 from rfl]
    by_cases hp : (jsCharAt l 13 == some segmentoType) = true
    · rw [List.find?_cons_of_pos rest hp, if_pos hp]
    · rw [List.find?_cons_of_neg rest hp, if_neg hp]
  · intro register hfind
    refine ⟨?_, ?_, ?_⟩
    · unfold searchSegmentPositions
      simp only [show CNAB_POSITIONS.SEGMENT_INDEX = 13 from rfl]
      rw [hfind]
    · show jsSubstring register (f - 1) t = _
      exact jsSubstring_no_swap register (f - 1) t h2
    · show jsSubstring register 0 (f - 1) ++
        jsSubstring register (f - 1) t ++ jsSubstringFrom register t =
          register
      exact jsSubstring_three_spans register f t h2

/-- Witness for the amended C4 at `from = 21`, `to = 34` on a body whose
first line is the ACME scenario line. -/
theorem searchSegmentPositions_first_match_report_witness :
    searchSegmentPositions [acmeLine] 'Q' 21 34 =
      .found (messageLog acmeLine 'Q' 21 34) ∧
    (messageLog acmeLine 'Q' 21 34).rendered = acmeLine := by
  have h := searchSegmentPositions_first_match_report [acmeLine] 'Q' 21 34
    (by decide) (by decide)
  have hreg := h.2 acmeLine (by decide)
  exact ⟨hreg.1, hreg.2.2⟩
